import Mathlib

/-!
Verification development for the `w90` crate: the data model and validator
of `src/input.rs`, the text serializer of `src/serialize.rs`, and the
stage-derivation functions of `src/qe_workflow.rs`, embedded shallowly.

Conventions of the embedding:
* Rust `u64` counts are embedded as `Nat` (they are only formatted and
  compared, never subjected to wrapping arithmetic).
* Rust `f64` values are embedded as `ℚ`; the only arithmetic performed on
  them in the sources is multiplication by a scalar (`scale_cell`,
  `scale_coords`), which the rational model represents faithfully at the
  structural level.  No claim below depends on floating-point rounding.
* `[T; 3]` arrays are embedded as triples, `[[f64; 3]; 3]` as a triple of
  triples; `Vec<T>` as `List T`.
* Rust `Result<T, E>` is `Except E T`; `Option<T>` is `Option T`.
* Each `make_*` serializer function in the source builds a `Vec<String>`
  of lines and joins them with a newline; the embedding keeps the lines
  as a `List String` and performs the join in `make_input_file`.
-/

/-- A 3-vector of reals (`[f64; 3]` in the source), as a triple. -/
abbrev Vec3 : Type := ℚ × ℚ × ℚ

/-- A 3×3 matrix of reals (`[[f64; 3]; 3]` in the source). -/
abbrev Mat3 : Type := Vec3 × Vec3 × Vec3

namespace W90

/-- `input.rs` `LatticeUnits`: unit system for lattice quantities. -/
inductive LatticeUnits : Type
  | Bohr : LatticeUnits
  | Angstrom : LatticeUnits
  deriving DecidableEq

/-- `input.rs` `MLWFIterationMode`: projections-only, or maximal
localization with a bounded iteration count. -/
inductive MLWFIterationMode : Type
  | ProjectionOnly : MLWFIterationMode
  | MLWF : (num_iter : Nat) → MLWFIterationMode
  deriving DecidableEq

/-- `input.rs` `Disentanglement`: the six-field disentanglement window. -/
structure Disentanglement : Type where
  dis_win_min : ℚ
  dis_win_max : ℚ
  dis_froz_min : ℚ
  dis_froz_max : ℚ
  dis_num_iter : Nat
  dis_mix_ratio : ℚ
  deriving DecidableEq

/-- `input.rs` `AngularMomentum`: the available angular-momentum channels. -/
inductive AngularMomentum : Type
  | S : AngularMomentum
  | P : AngularMomentum
  | D : AngularMomentum
  | F : AngularMomentum
  deriving DecidableEq

/-- `input.rs` `ProjectionSite`: species-centered, Cartesian-centered or
crystal-coordinate-centered projection site. -/
inductive ProjectionSite : Type
  | Species : (species : String) → ProjectionSite
  | CenterCartesian : (r : Vec3) → ProjectionSite
  | CenterCrystal : (r : Vec3) → ProjectionSite
  deriving DecidableEq

/-- `input.rs` `Projection`: the random variant, or a site-centered
projection with channels and optional orientation/radial/diffuseness data. -/
inductive Projection : Type
  | Random : Projection
  | Site : (site : ProjectionSite) → (ang_mtm : List AngularMomentum) →
      (zaxis : Option Vec3) → (xaxis : Option Vec3) →
      (radial : Option Nat) → (zona : Option ℚ) → Projection
  deriving DecidableEq

/-- `input.rs` `Cell`: unit tag plus 3×3 lattice vectors. -/
structure Cell : Type where
  units : LatticeUnits
  cell : Mat3
  deriving DecidableEq

/-- `input.rs` `PositionCoordinateType`: coordinate frame of atomic
positions. -/
inductive PositionCoordinateType : Type
  | BohrCartesian : PositionCoordinateType
  | AngstromCartesian : PositionCoordinateType
  | Crystal : PositionCoordinateType
  deriving DecidableEq

/-- `input.rs` `AtomCoordinate`: a species label and a position 3-vector. -/
structure AtomCoordinate : Type where
  species : String
  r : Vec3
  deriving DecidableEq

/-- `input.rs` `Positions`: frame tag plus the atom list. -/
structure Positions : Type where
  coordinate_type : PositionCoordinateType
  coordinates : List AtomCoordinate
  deriving DecidableEq

/-- `input.rs` `Input`: the root Wannierization configuration. -/
structure Input : Type where
  num_bands : Nat
  num_wann : Nat
  write_hr : Option Bool
  mlwf_iteration_mode : MLWFIterationMode
  disentanglement : Option Disentanglement
  spinors : Bool
  projection_units : Option LatticeUnits
  projections : List Projection
  unit_cell_cart : Cell
  positions : Positions
  kpoints : Nat × Nat × Nat
  deriving DecidableEq

/-- `input.rs` `Error`: the single validation error variant. -/
inductive Error : Type
  | RandomCount : Error
  deriving DecidableEq

/-- `qe::error::ErrorList` instantiated at `Error`: the collected list of
validation errors. -/
structure ErrorList : Type where
  errs : List Error
  deriving DecidableEq

/-- The `random_count` computed inside `validate`: how many `Random`
entries appear in the projection list. -/
def random_count (input : Input) : Nat :=
  (input.projections.filter (fun p => p == Projection.Random)).length

/-- `input.rs` `validate`: collect all invariant violations (today only
the at-most-one-`Random` check); succeed iff the collected list is empty. -/
def validate (input : Input) : Except ErrorList Unit :=
  let errs : List Error :=
    if random_count input > 1 then [Error.RandomCount] else []
  if errs.length = 0 then Except.ok () else Except.error ⟨errs⟩

end W90

namespace Serialize

open W90

/-- Model of Rust's default `f64` `Display` formatting, over the rational
embedding of `f64`.  The sources only interpolate these values into lines
with the default formatter; no claim below depends on the digits, only on
line structure, so the rational printer stands in for the float printer. -/
def format_f64 (x : ℚ) : String :=
  toString x

/-- `serialize.rs` `impl Field for MLWFIterationMode`: the `num_iter`
value, `0` for the projections-only variant. -/
def MLWFIterationMode.value : MLWFIterationMode → String
  | MLWFIterationMode.ProjectionOnly => toString (0 : Nat)
  | MLWFIterationMode.MLWF num_iter => toString num_iter

/-- `serialize.rs` `impl Field for LatticeUnits`: fixed lowercase tokens. -/
def LatticeUnits.value : LatticeUnits → String
  | LatticeUnits.Bohr => "bohr"
  | LatticeUnits.Angstrom => "ang"

/-- `serialize.rs` `impl Field for AngularMomentum`: `l=<integer>` tokens. -/
def AngularMomentum.value : AngularMomentum → String
  | AngularMomentum.S => "l=0"
  | AngularMomentum.P => "l=1"
  | AngularMomentum.D => "l=2"
  | AngularMomentum.F => "l=3"

/-- `serialize.rs` `impl Field for ProjectionSite`: the site token. -/
def ProjectionSite.value : ProjectionSite → String
  | ProjectionSite.Species species => species
  | ProjectionSite.CenterCartesian r =>
      "c = " ++ format_f64 r.1 ++ ", " ++ format_f64 r.2.1 ++ ", " ++
        format_f64 r.2.2
  | ProjectionSite.CenterCrystal r =>
      "f = " ++ format_f64 r.1 ++ ", " ++ format_f64 r.2.1 ++ ", " ++
        format_f64 r.2.2

/-- `serialize.rs` `impl Field for Projection`: `random`, or the site
token, a `:`, the `;`-separated channel tokens (the source's indexed loop
is the `;`-intercalation of the channel tokens), and the optional
`:z=`/`:x=`/`:r=`/`:zona=` suffixes, each present iff its field is set. -/
def Projection.value : Projection → String
  | Projection.Random => "random"
  | Projection.Site site ang_mtm zaxis xaxis radial zona =>
      ProjectionSite.value site ++ ":" ++
        String.intercalate (";") (ang_mtm.map AngularMomentum.value) ++
        (match zaxis with
          | some z =>
              ":z=" ++ format_f64 z.1 ++ "," ++ format_f64 z.2.1 ++ "," ++
                format_f64 z.2.2
          | none => "") ++
        (match xaxis with
          | some x =>
              ":x=" ++ format_f64 x.1 ++ "," ++ format_f64 x.2.1 ++ "," ++
                format_f64 x.2.2
          | none => "") ++
        (match radial with
          | some r => ":r=" ++ toString r
          | none => "") ++
        (match zona with
          | some z => ":zona=" ++ format_f64 z
          | none => "")

/-- `serialize.rs` `push_bool_field`: the lines this helper appends to its
`lines` argument — one `name=.true.`/`name=.false.` line when the optional
boolean is present, nothing when it is absent. -/
def push_bool_field (name : String) (b : Option Bool) : List String :=
  match b with
  | some b => [name ++ "=" ++ (if b then ".true." else ".false.")]
  | none => []

/-- `serialize.rs` `make_header`: `num_bands`, `num_wann`, `num_iter`
lines, then the optional `write_hr` boolean — which the source passes to
`push_bool_field` under the name `num_iter` (reproduced verbatim). -/
def make_header (input : Input) : List String :=
  ["num_bands = " ++ toString input.num_bands,
   "num_wann = " ++ toString input.num_wann,
   "num_iter = " ++ MLWFIterationMode.value input.mlwf_iteration_mode] ++
    push_bool_field ("num_iter") input.write_hr

/-- `serialize.rs` `make_disentanglement`: the six window fields. -/
def make_disentanglement (dis : Disentanglement) : List String :=
  ["dis_win_min = " ++ format_f64 dis.dis_win_min,
   "dis_win_max = " ++ format_f64 dis.dis_win_max,
   "dis_froz_min = " ++ format_f64 dis.dis_froz_min,
   "dis_froz_max = " ++ format_f64 dis.dis_froz_max,
   "dis_num_iter = " ++ toString dis.dis_num_iter,
   "dis_mix_ratio = " ++ format_f64 (Disentanglement.dis_mix_ratio dis)]

/-- `serialize.rs` `make_projections`: the spinors boolean line (always
passed as `Some`), `begin projections`, the optional unit-tag line, one
line per projection, `end projections`. -/
def make_projections (input : Input) : List String :=
  push_bool_field ("spinors") (some input.spinors) ++
    ["begin projections"] ++
    (match input.projection_units with
      | some units => [LatticeUnits.value units]
      | none => []) ++
    input.projections.map Projection.value ++
    ["end projections"]

/-- One lattice-vector line of `make_unit_cell` (the source's
double-space-separated format). -/
def cell_line (a : Vec3) : String :=
  "  " ++ format_f64 a.1 ++ "  " ++ format_f64 a.2.1 ++ "  " ++
    format_f64 a.2.2

/-- `serialize.rs` `make_unit_cell`: `begin unit_cell_cart`, the unit tag,
three lattice-vector lines, `end unit_cell_cart`. -/
def make_unit_cell (input : Input) : List String :=
  ["begin unit_cell_cart", LatticeUnits.value input.unit_cell_cart.units,
   cell_line input.unit_cell_cart.cell.1,
   cell_line input.unit_cell_cart.cell.2.1,
   cell_line input.unit_cell_cart.cell.2.2,
   "end unit_cell_cart"]

/-- One atom line of `make_positions`: a leading space, then the
species and the three coordinates, space-separated. -/
def atom_line (coord : AtomCoordinate) : String :=
  " " ++ coord.species ++ " " ++ format_f64 coord.r.1 ++ " " ++
    format_f64 coord.r.2.1 ++ " " ++ format_f64 coord.r.2.2

/-- `serialize.rs` `make_positions`: frame-appropriate `begin` marker
(`atoms_cart` plus a `bohr`/`ang` tag line for the Cartesian frames,
`atoms_frac` alone for the crystal frame), one line per atom, then the
matching `end` marker. -/
def make_positions (input : Input) : List String :=
  (match input.positions.coordinate_type with
    | PositionCoordinateType.BohrCartesian => ["begin atoms_cart", "bohr"]
    | PositionCoordinateType.AngstromCartesian => ["begin atoms_cart", "ang"]
    | PositionCoordinateType.Crystal => ["begin atoms_frac"]) ++
    input.positions.coordinates.map atom_line ++
    (match input.positions.coordinate_type with
      | PositionCoordinateType.BohrCartesian => ["end atoms_cart"]
      | PositionCoordinateType.AngstromCartesian => ["end atoms_cart"]
      | PositionCoordinateType.Crystal => ["end atoms_frac"])

/-- Modelled from the spec: `qe::pw::input::generate_uniform_kpoints`
lives in the external `qe` crate (not part of this repository); per the
spec it expands the 3-integer shape into its full uniform fractional
grid, one point per entry.  No claim below depends on the order or the
values of the generated points, only on the surrounding block structure. -/
def generate_uniform_kpoints (nk : Nat × Nat × Nat) : List Vec3 :=
  (List.range nk.1).flatMap (fun i =>
    (List.range nk.2.1).flatMap (fun j =>
      (List.range nk.2.2).map (fun k =>
        ((i : ℚ) / (nk.1 : ℚ), (j : ℚ) / (nk.2.1 : ℚ),
          (k : ℚ) / (nk.2.2 : ℚ)))))

/-- One k-point line of `make_kpoints`: three space-separated values. -/
def kpoint_line (k : Vec3) : String :=
  format_f64 k.1 ++ " " ++ format_f64 k.2.1 ++ " " ++ format_f64 k.2.2

/-- `serialize.rs` `make_kpoints`: the `mp_grid` line, `begin kpoints`,
one line per generated uniform-grid point, `end kpoints`. -/
def make_kpoints (input : Input) : List String :=
  ["mp_grid = " ++ toString input.kpoints.1 ++ " " ++
     toString input.kpoints.2.1 ++ " " ++ toString input.kpoints.2.2,
   "begin kpoints"] ++
    (generate_uniform_kpoints input.kpoints).map kpoint_line ++
    ["end kpoints"]

/-- `serialize.rs` `Error`: validation failure (wrapping the error list)
or I/O failure.  `make_input_file` itself only ever produces the `Input`
variant; the `Io` variant wraps the external file collaborator's failure
and carries no modelled payload. -/
inductive Error : Type
  | Input : (errs : ErrorList) → Error
  | Io : Error
  deriving DecidableEq

/-- The ordered section list assembled by `make_input_file`: header,
optional disentanglement block, then projections, unit cell, positions
and k-points. -/
def input_sections (input : Input) : List (List String) :=
  [make_header input] ++
    (match input.disentanglement with
      | some disentanglement => [make_disentanglement disentanglement]
      | none => []) ++
    [make_projections input, make_unit_cell input, make_positions input,
     make_kpoints input]

/-- `serialize.rs` `make_input_file`: validate first (failing with the
wrapped error list and producing no document on failure), then join each
section's lines and the sections themselves with newlines. -/
def make_input_file (input : Input) : Except Error String :=
  match validate input with
  | Except.error errs => Except.error (Error.Input errs)
  | Except.ok _ =>
      Except.ok (String.intercalate ("\n")
        ((input_sections input).map (fun s => String.intercalate ("\n") s)))

end Serialize

namespace Pw

/-!
The upstream plane-wave configuration (`qe::pw::input::Input`) belongs to
the external `qe` crate and is not part of this repository; the spec
treats it as an external read-only collaborator specified only at its
interface.  The types below are modelled from the spec's consumed
interface (§6) together with the exact accessor fields and match arms
used by `src/qe_workflow.rs`.
-/

/-- Modelled from the spec: the upstream calculation kind.  `Scf`'s own
payload fields are never read by this repository (matched only with
`Scf { .. }`) and are omitted; `Nscf` and `Bands` carry the initial
diagonalization threshold, the optional band count and the optional
symmetry-disable flag, exactly the payloads `qe_workflow.rs` reads and
writes. -/
inductive Calculation : Type
  | Scf : Calculation
  | Nscf : (diago_thr_init : ℚ) → (nbnd : Option Nat) →
      (nosym : Option Bool) → Calculation
  | Bands : (diago_thr_init : ℚ) → (nbnd : Option Nat) →
      (nosym : Option Bool) → Calculation
  deriving DecidableEq

/-- Modelled from the spec: the upstream smearing kind.  Its variants are
never inspected by this repository (only cloned into the occupations
policy), so two representative variants suffice. -/
inductive Smearing : Type
  | Gaussian : Smearing
  | MarzariVanderbilt : Smearing
  deriving DecidableEq

/-- Modelled from the spec: the upstream occupations policy; this
repository only ever constructs the `Smearing` variant, the other
variants are summarized by `Fixed`. -/
inductive Occupations : Type
  | Smearing : (kind : Smearing) → (width : ℚ) → Occupations
  | Fixed : Occupations
  deriving DecidableEq

/-- Modelled from the spec: the upstream spin-treatment enumeration.
`Noncollinear`'s own payload fields are never read by this repository
(matched only with `Noncollinear { .. }`) and are omitted. -/
inductive SpinType : Type
  | NonPolarized : SpinType
  | CollinearPolarized : SpinType
  | Noncollinear : SpinType
  deriving DecidableEq

/-- Modelled from the spec: the upstream lattice-unit tag — the
lattice-parameter-relative unit (`Alat`) plus the two absolute units. -/
inductive LatticeUnits : Type
  | Alat : LatticeUnits
  | Bohr : LatticeUnits
  | Angstrom : LatticeUnits
  deriving DecidableEq

/-- Modelled from the spec: the upstream cell — a unit tag and explicit
3×3 lattice vectors. -/
structure Cell : Type where
  units : LatticeUnits
  cell : Mat3
  deriving DecidableEq

/-- Modelled from the spec: the upstream Bravais-lattice representation;
the source's match over it has a single `Free` arm carrying an
explicit-lattice-vector cell (other cases are a documented TODO in the
source and do not exist as variants today). -/
inductive Ibrav : Type
  | Free : (cell : Cell) → Ibrav
  deriving DecidableEq

/-- Modelled from the spec: the upstream k-point specification — a
uniform fractional grid, a band path, or any other kind.  The band-path
payload is opaque to this repository (matched only with
`CrystalBands { .. }` and cloned whole); it is modelled as a list of
path-point 3-vectors with per-segment counts. -/
inductive KPoints : Type
  | CrystalUniform : (nk : Nat × Nat × Nat) → KPoints
  | CrystalBands : (path : List (Vec3 × Nat)) → KPoints
  | Other : KPoints
  deriving DecidableEq

/-- Modelled from the spec: one upstream atomic coordinate — species
label plus position 3-vector. -/
structure AtomCoordinate : Type where
  species : String
  r : Vec3
  deriving DecidableEq

/-- Modelled from the spec: the upstream coordinate-frame tag for atomic
positions, including the unsupported space-group crystal form. -/
inductive PositionCoordinateType : Type
  | AlatCartesian : PositionCoordinateType
  | BohrCartesian : PositionCoordinateType
  | AngstromCartesian : PositionCoordinateType
  | Crystal : PositionCoordinateType
  | CrystalSG : PositionCoordinateType
  deriving DecidableEq

/-- Modelled from the spec: the upstream atomic-position list with its
frame tag. -/
structure AtomicPositions : Type where
  coordinate_type : PositionCoordinateType
  coordinates : List AtomCoordinate
  deriving DecidableEq

/-- Modelled from the spec: the `system` sub-record of the upstream
configuration, restricted to the accessor fields this repository reads
or writes (`ibrav`, `alat`, `occupations`, `spin_type`). -/
structure System : Type where
  ibrav : Ibrav
  alat : ℚ
  occupations : Occupations
  spin_type : Option SpinType
  deriving DecidableEq

/-- Modelled from the spec: the upstream plane-wave configuration,
restricted to the accessor fields named in the spec's consumed interface
(calculation kind, system record, atomic positions, k-point
specification). -/
structure Input : Type where
  calculation : Calculation
  system : System
  atomic_positions : AtomicPositions
  k_points : KPoints
  deriving DecidableEq

end Pw

namespace QeWorkflow

/-- `qe_workflow.rs` `Error`: the derivation failure conditions. -/
inductive Error : Type
  | WrongCalculation : Error
  | NoSym : Error
  | NumBands : Error
  | WrongKPointsNscf : Error
  | WrongKPointsBands : Error
  | CrystalSG : Error
  deriving DecidableEq

/-- `qe_workflow.rs` `scale_cell`: multiply every lattice-vector
component by `alat`, row by row as the source writes it out. -/
def scale_cell (cell : Mat3) (alat : ℚ) : Mat3 :=
  ((alat * cell.1.1, alat * cell.1.2.1, alat * cell.1.2.2),
   (alat * cell.2.1.1, alat * cell.2.1.2.1, alat * cell.2.1.2.2),
   (alat * cell.2.2.1, alat * cell.2.2.2.1, alat * cell.2.2.2.2))

/-- `qe_workflow.rs` `scale_coords`: scale every atomic coordinate by
`alat`, keeping the species label. -/
def scale_coords (coordinates : List Pw.AtomCoordinate) (alat : ℚ) :
    List W90.AtomCoordinate :=
  coordinates.map (fun c =>
    { species := c.species,
      r := (alat * c.r.1, alat * c.r.2.1, alat * c.r.2.2) })

/-- `qe_workflow.rs` `map_coords`: re-wrap upstream coordinates as
Wannierization coordinates unchanged. -/
def map_coords (coordinates : List Pw.AtomCoordinate) :
    List W90.AtomCoordinate :=
  coordinates.map (fun c => { species := c.species, r := c.r })

/-- `qe_workflow.rs` `nscf_input`: require a self-consistent upstream,
then clone it, replacing the calculation kind (non-self-consistent with
the given threshold, band count and symmetry reduction disabled), the
occupations policy (the given smearing), and the k-point specification
(the uniform grid of the given shape). -/
def nscf_input (scf : Pw.Input) (diago_thr_init : ℚ) (num_bands : Nat)
    (smearing_type : Pw.Smearing) (smearing_size : ℚ)
    (nscf_nk : Nat × Nat × Nat) : Except Error Pw.Input :=
  match scf.calculation with
  | Pw.Calculation.Scf =>
      Except.ok { scf with
        calculation :=
          Pw.Calculation.Nscf diago_thr_init (some num_bands) (some true),
        system := { scf.system with
          occupations := Pw.Occupations.Smearing smearing_type smearing_size },
        k_points := Pw.KPoints.CrystalUniform nscf_nk }
  | _ => Except.error Error.WrongCalculation

/-- `qe_workflow.rs` `bands_input`: extract the non-self-consistent
payload (failing with `WrongCalculation` otherwise), require the
symmetry-disable flag to be explicitly `true` (failing with `NoSym` when
absent or `false`), require the supplied k-points to be a band path
(failing with `WrongKPointsBands` otherwise), and clone the upstream with
the calculation kind replaced by band structure carrying the same payload
and the k-points replaced by the supplied specification. -/
def bands_input (nscf : Pw.Input) (bands_kpoints : Pw.KPoints) :
    Except Error Pw.Input :=
  match nscf.calculation with
  | Pw.Calculation.Nscf diago_thr_init nbnd nosym =>
      (match nosym with
        | some ns =>
            if ¬ ns then Except.error Error.NoSym
            else
              match bands_kpoints with
              | Pw.KPoints.CrystalBands path =>
                  Except.ok { nscf with
                    calculation :=
                      Pw.Calculation.Bands diago_thr_init nbnd nosym,
                    k_points := Pw.KPoints.CrystalBands path }
              | _ => Except.error Error.WrongKPointsBands
        | none => Except.error Error.NoSym)
  | _ => Except.error Error.WrongCalculation

/-!
`qe_workflow.rs` `w90_input` computes its derived values in four inline
blocks; the embedding factors each block into a named definition (control
flow, match arms and error order unchanged) and composes them in the
source's order in `w90_input` below.
-/

/-- `qe_workflow.rs` `w90_input`, source lines 81–90: the band count from
the upstream non-self-consistent payload, `WrongCalculation` for any
other calculation kind, `NumBands` when the payload's band count is
absent. -/
def w90_num_bands (nscf : Pw.Input) : Except Error Nat :=
  match nscf.calculation with
  | Pw.Calculation.Nscf _ nbnd _ =>
      (match nbnd with
        | some nbnd => Except.ok nbnd
        | none => Except.error Error.NumBands)
  | _ => Except.error Error.WrongCalculation

/-- `qe_workflow.rs` `w90_input`, source lines 92–98: the spinor flag —
`true` only for an explicit non-collinear spin type. -/
def derived_spinors (nscf : Pw.Input) : Bool :=
  match nscf.system.spin_type with
  | some spin_type =>
      (match spin_type with
        | Pw.SpinType.NonPolarized => false
        | Pw.SpinType.CollinearPolarized => false
        | Pw.SpinType.Noncollinear => true)
  | none => false

/-- `qe_workflow.rs` `w90_input`, source lines 100–118: the derived cell —
lattice-parameter-relative cells are scaled by `alat` and tagged Bohr,
Bohr and angstrom cells pass through with the corresponding tag. -/
def derived_cell (nscf : Pw.Input) : W90.Cell :=
  match nscf.system.ibrav with
  | Pw.Ibrav.Free cell =>
      (match cell.units with
        | Pw.LatticeUnits.Alat =>
            { units := W90.LatticeUnits.Bohr,
              cell := scale_cell cell.cell nscf.system.alat }
        | Pw.LatticeUnits.Bohr =>
            { units := W90.LatticeUnits.Bohr, cell := cell.cell }
        | Pw.LatticeUnits.Angstrom =>
            { units := W90.LatticeUnits.Angstrom, cell := cell.cell })

/-- `qe_workflow.rs` `w90_input`, source lines 120–143: the derived
positions — lattice-parameter-relative Cartesian coordinates are scaled
by `alat` and tagged Bohr-Cartesian, the other supported frames map 1:1,
the space-group crystal frame fails with `CrystalSG`. -/
def derived_positions (nscf : Pw.Input) : Except Error W90.Positions :=
  match nscf.atomic_positions.coordinate_type with
  | Pw.PositionCoordinateType.AlatCartesian =>
      Except.ok
        { coordinate_type := W90.PositionCoordinateType.BohrCartesian,
          coordinates :=
            scale_coords nscf.atomic_positions.coordinates nscf.system.alat }
  | Pw.PositionCoordinateType.BohrCartesian =>
      Except.ok
        { coordinate_type := W90.PositionCoordinateType.BohrCartesian,
          coordinates := map_coords nscf.atomic_positions.coordinates }
  | Pw.PositionCoordinateType.AngstromCartesian =>
      Except.ok
        { coordinate_type := W90.PositionCoordinateType.AngstromCartesian,
          coordinates := map_coords nscf.atomic_positions.coordinates }
  | Pw.PositionCoordinateType.Crystal =>
      Except.ok
        { coordinate_type := W90.PositionCoordinateType.Crystal,
          coordinates := map_coords nscf.atomic_positions.coordinates }
  | Pw.PositionCoordinateType.CrystalSG => Except.error Error.CrystalSG

/-- `qe_workflow.rs` `w90_input`, source lines 145–148: the k-point grid,
requiring a uniform fractional grid upstream. -/
def w90_kpoints (nscf : Pw.Input) : Except Error (Nat × Nat × Nat) :=
  match nscf.k_points with
  | Pw.KPoints.CrystalUniform k_points => Except.ok k_points
  | _ => Except.error Error.WrongKPointsNscf

/-- `qe_workflow.rs` `w90_input`: derive the Wannierization configuration
from a non-self-consistent upstream, composing the derived-value blocks
above in the source's order, with `write_hr` always `Some(true)`. -/
def w90_input (nscf : Pw.Input) (num_wann : Nat)
    (mlwf_iteration_mode : W90.MLWFIterationMode)
    (disentanglement : W90.Disentanglement)
    (projection_units : Option W90.LatticeUnits)
    (projections : List W90.Projection) : Except Error W90.Input :=
  match w90_num_bands nscf with
  | Except.error e => Except.error e
  | Except.ok num_bands =>
      match derived_positions nscf with
      | Except.error e => Except.error e
      | Except.ok positions =>
          match w90_kpoints nscf with
          | Except.error e => Except.error e
          | Except.ok k_points =>
              Except.ok
                { num_bands := num_bands,
                  num_wann := num_wann,
                  write_hr := some true,
                  mlwf_iteration_mode := mlwf_iteration_mode,
                  disentanglement := some disentanglement,
                  spinors := derived_spinors nscf,
                  projection_units := projection_units,
                  projections := projections,
                  unit_cell_cart := derived_cell nscf,
                  positions := positions,
                  kpoints := k_points }

end QeWorkflow

namespace Examples

open W90

/-- The worked example's disentanglement window (`tests/w90_input.rs`). -/
def example_disentanglement : Disentanglement :=
  { dis_win_min := -6.5582, dis_win_max := 8.4418,
    dis_froz_min := -4.5582, dis_froz_max := 6.4418,
    dis_num_iter := 1000, dis_mix_ratio := 0.5 }

/-- The worked example's two species-centered projections. -/
def example_projections : List Projection :=
  [Projection.Site (ProjectionSite.Species ("Se")) [AngularMomentum.P]
      none none none none,
   Projection.Site (ProjectionSite.Species ("W")) [AngularMomentum.D]
      none none none none]

/-- The worked example's hexagonal Bohr cell. -/
def example_cell : Cell :=
  { units := LatticeUnits.Bohr,
    cell := ((3.13603975949, -5.43178019799, 0),
             (3.13603975949, 5.43178019799, 0),
             (0, 0, 68.6629186029)) }

/-- The worked example's three crystal-frame atoms. -/
def example_positions : Positions :=
  { coordinate_type := PositionCoordinateType.Crystal,
    coordinates :=
      [{ species := "Se", r := (0, 0, 0.275217856494) },
       { species := "W",
         r := (0.333333333333, 0.666666666667, 0.321438654707) },
       { species := "Se", r := (0, 0, 0.36765945292) }] }

/-- The worked-example configuration of `tests/w90_input.rs`: 44 bands,
22 target orbitals, projection-only iteration, the window above, the two
projections, the hexagonal cell, three crystal-frame atoms, a 9×9×1
k-grid, and the real-space-Hamiltonian flag set. -/
def example_input : Input :=
  { num_bands := 44, num_wann := 22, write_hr := some true,
    mlwf_iteration_mode := MLWFIterationMode.ProjectionOnly,
    disentanglement := some example_disentanglement,
    spinors := true, projection_units := none,
    projections := example_projections,
    unit_cell_cart := example_cell,
    positions := example_positions,
    kpoints := (9, 9, 1) }

/-- A configuration with two `Random` projections (otherwise the worked
example), violating the at-most-one-`Random` invariant. -/
def two_random_input : Input :=
  { example_input with projections := [Projection.Random, Projection.Random] }

/-- A site-centered projection whose channel sequence is empty. -/
def empty_channel_site : Projection :=
  Projection.Site (ProjectionSite.Species ("Se")) [] none none none none

/-- A configuration holding the empty-channel projection together with
two `Random` projections. -/
def empty_channel_two_random_input : Input :=
  { example_input with
      projections := [empty_channel_site, Projection.Random,
        Projection.Random] }

/-- A configuration holding the empty-channel projection and nothing
else in its projection list. -/
def empty_channel_ok_input : Input :=
  { example_input with projections := [empty_channel_site] }

/-- A lattice-parameter-relative (`Alat`) upstream cell with unit lattice
vectors. -/
def alat_pw_cell : Pw.Cell :=
  { units := Pw.LatticeUnits.Alat,
    cell := ((1, 0, 0), (0, 1, 0), (0, 0, 1)) }

/-- A concrete upstream self-consistent configuration. -/
def scf_pw_input : Pw.Input :=
  { calculation := Pw.Calculation.Scf,
    system :=
      { ibrav := Pw.Ibrav.Free alat_pw_cell,
        alat := 2,
        occupations := Pw.Occupations.Fixed,
        spin_type := some Pw.SpinType.Noncollinear },
    atomic_positions :=
      { coordinate_type := Pw.PositionCoordinateType.Crystal,
        coordinates := [{ species := "Se", r := (0, 0, 1) }] },
    k_points := Pw.KPoints.CrystalUniform (9, 9, 1) }

/-- The same upstream in a non-self-consistent stage with the
symmetry-disable flag absent. -/
def nscf_nosym_none_pw_input : Pw.Input :=
  { scf_pw_input with
      calculation := Pw.Calculation.Nscf 1 (some 44) none }

/-- The same upstream in a non-self-consistent stage with the
symmetry-disable flag explicitly `true`. -/
def nscf_sym_true_pw_input : Pw.Input :=
  { scf_pw_input with
      calculation := Pw.Calculation.Nscf 1 (some 44) (some true) }

/-- A band-path k-point specification. -/
def band_path_kpoints : Pw.KPoints :=
  Pw.KPoints.CrystalBands [((0, 0, 0), 10)]

/-- The result `nscf_input` produces from `scf_pw_input` with threshold 1,
44 bands, Gaussian smearing of width 1 and an 8×8×8 grid. -/
def nscf_out_pw_input : Pw.Input :=
  { scf_pw_input with
      calculation := Pw.Calculation.Nscf 1 (some 44) (some true),
      system := { scf_pw_input.system with
        occupations := Pw.Occupations.Smearing Pw.Smearing.Gaussian 1 },
      k_points := Pw.KPoints.CrystalUniform (8, 8, 8) }

/-- The result `bands_input` produces from `nscf_sym_true_pw_input` and
`band_path_kpoints`. -/
def bands_out_pw_input : Pw.Input :=
  { nscf_sym_true_pw_input with
      calculation := Pw.Calculation.Bands 1 (some 44) (some true),
      k_points := band_path_kpoints }

/-- The result `w90_input` produces from `nscf_sym_true_pw_input` with
22 target orbitals, projection-only iteration, the worked example's
window and an empty projection list. -/
def w90_out_input : Input :=
  { num_bands := 44, num_wann := 22, write_hr := some true,
    mlwf_iteration_mode := MLWFIterationMode.ProjectionOnly,
    disentanglement := some example_disentanglement,
    spinors := QeWorkflow.derived_spinors nscf_sym_true_pw_input,
    projection_units := none,
    projections := [],
    unit_cell_cart := QeWorkflow.derived_cell nscf_sym_true_pw_input,
    positions :=
      { coordinate_type := PositionCoordinateType.Crystal,
        coordinates :=
          QeWorkflow.map_coords
            nscf_sym_true_pw_input.atomic_positions.coordinates },
    kpoints := (9, 9, 1) }

end Examples

/-! Shared helper lemmas. -/

/-- `validate` succeeds when the projection list holds at most one
`Random` entry. -/
theorem W90.validate_ok_of_le_one (input : W90.Input)
    (h : W90.random_count input ≤ 1) :
    W90.validate input = Except.ok () := by
  have h1 : ¬ (W90.random_count input > 1) := by omega
  simp [W90.validate, h1]

/-- `validate` collects exactly the `RandomCount` error when the
projection list holds at least two `Random` entries. -/
theorem W90.validate_error_of_two (input : W90.Input)
    (h : 2 ≤ W90.random_count input) :
    W90.validate input = Except.error ⟨[W90.Error.RandomCount]⟩ := by
  have h1 : W90.random_count input > 1 := h
  simp [W90.validate, h1]

/-- An atom line starts with a space, so it is never one of the two
unit-tag lines. -/
theorem Serialize.atom_line_ne_tag (c : W90.AtomCoordinate) :
    Serialize.atom_line c ≠ "bohr" ∧ Serialize.atom_line c ≠ "ang" := by
  refine ⟨?_, ?_⟩ <;>
    (intro h
     have hd := congrArg String.data h
     simp [Serialize.atom_line, String.data_append] at hd)

/-! Claim theorems. -/

/-- C1 (code divergence witness): at the worked-example configuration,
whose real-space-Hamiltonian flag is present (and true), the header
block's fourth line renders that flag under the key `num_iter` — the
same key as the iteration-count line on the third row, not a distinct
key of its own, and without spaces around `=`. -/
theorem header_writes_hr_under_num_iter_key :
    Serialize.make_header Examples.example_input =
      ["num_bands = 44", "num_wann = 22", "num_iter = 0",
       "num_iter=.true."] := by
  decide

/-- C2: for every configuration whose projection sequence holds two or
more `Random`-variant entries, `validate` returns an error list
containing the `RandomCount` condition; for zero or one such entry it
succeeds. -/
theorem validate_random_count_spec (input : W90.Input) :
    (2 ≤ W90.random_count input →
      ∃ l : W90.ErrorList, W90.validate input = Except.error l ∧
        W90.Error.RandomCount ∈ l.errs) ∧
    (W90.random_count input ≤ 1 → W90.validate input = Except.ok ()) := by
  refine ⟨fun h => ?_, fun h => W90.validate_ok_of_le_one input h⟩
  exact ⟨⟨[W90.Error.RandomCount]⟩, W90.validate_error_of_two input h,
    by simp⟩

/-- C2 witness: the two-`Random` configuration is rejected with
`RandomCount`, the worked example (one `Random`-free list) is accepted. -/
theorem validate_random_count_spec_witness :
    (∃ l : W90.ErrorList,
      W90.validate Examples.two_random_input = Except.error l ∧
        W90.Error.RandomCount ∈ l.errs) ∧
    W90.validate Examples.example_input = Except.ok () :=
  ⟨(validate_random_count_spec Examples.two_random_input).1 (by decide),
   (validate_random_count_spec Examples.example_input).2 (by decide)⟩

/-- C3: on the worked-example configuration, `make_input_file` succeeds;
the header block's first three lines read `num_bands = 44`,
`num_wann = 22`, `num_iter = 0`; the k-points block starts with
`mp_grid = 9 9 1`; and the positions block is delimited by
`begin atoms_frac` / `end atoms_frac` with one atom line per atom and no
unit-tag line anywhere in it. -/
theorem worked_example_document_spec :
    (∃ doc, Serialize.make_input_file Examples.example_input =
        Except.ok doc) ∧
    (Serialize.make_header Examples.example_input).take 3 =
      ["num_bands = 44", "num_wann = 22", "num_iter = 0"] ∧
    (Serialize.make_kpoints Examples.example_input).head? =
      some ("mp_grid = 9 9 1") ∧
    Serialize.make_positions Examples.example_input =
      ["begin atoms_frac"] ++
        Examples.example_input.positions.coordinates.map
          Serialize.atom_line ++
        ["end atoms_frac"] ∧
    ∀ l ∈ Serialize.make_positions Examples.example_input,
      l ≠ "bohr" ∧ l ≠ "ang" := by
  have hpos : Serialize.make_positions Examples.example_input =
      ["begin atoms_frac"] ++
        Examples.example_input.positions.coordinates.map
          Serialize.atom_line ++
        ["end atoms_frac"] := rfl
  refine ⟨⟨_, rfl⟩, by decide, by decide, hpos, ?_⟩
  intro l hl
  rw [hpos] at hl
  simp only [List.mem_append, List.mem_map, List.mem_singleton,
    List.mem_cons, List.not_mem_nil, or_false] at hl
  rcases hl with (rfl | ⟨c, _, rfl⟩) | rfl
  · exact ⟨by decide, by decide⟩
  · exact Serialize.atom_line_ne_tag c
  · exact ⟨by decide, by decide⟩

/-- C9: for every configuration, the serialized projections block begins
with the spinors boolean line, rendered `spinors=.true.` or
`spinors=.false.`, never omitted. -/
theorem make_projections_spinors_line_spec (input : W90.Input) :
    (Serialize.make_projections input).head? =
      some (if input.spinors then "spinors=.true." else "spinors=.false.") := by
  cases hs : input.spinors <;>
    simp [Serialize.make_projections, Serialize.push_bool_field, hs]

/-- C10 counterexample: a configuration containing a site-centered
projection with an empty channel sequence on which `validate`
nevertheless fails (it also holds two `Random` projections), so the
unconditional claim that any such configuration validates is false. -/
theorem empty_channel_claim_counterexample :
    Examples.empty_channel_site ∈
      Examples.empty_channel_two_random_input.projections ∧
    W90.validate Examples.empty_channel_two_random_input =
      Except.error ⟨[W90.Error.RandomCount]⟩ := by
  exact ⟨List.mem_cons_self _ _, W90.validate_error_of_two _ (by decide)⟩

/-- C10 (amended): for every configuration whose projection sequence
holds at most one `Random` entry and contains a site-centered projection
with an empty channel sequence and no optional fields, `validate`
succeeds, serialization succeeds, and that projection renders as the
site token followed by a trailing `:` with no channel tokens — the
non-emptiness of the channel sequence is not enforced. -/
theorem empty_channel_unenforced_spec (input : W90.Input)
    (site : W90.ProjectionSite)
    (hmem : W90.Projection.Site site [] none none none none ∈
      input.projections)
    (hrand : W90.random_count input ≤ 1) :
    W90.validate input = Except.ok () ∧
    (∃ doc, Serialize.make_input_file input = Except.ok doc) ∧
    Serialize.Projection.value
        (W90.Projection.Site site [] none none none none) =
      Serialize.ProjectionSite.value site ++ ":" ∧
    (Serialize.ProjectionSite.value site ++ ":") ∈
      Serialize.make_projections input := by
  have hok := W90.validate_ok_of_le_one input hrand
  have hv : Serialize.Projection.value
      (W90.Projection.Site site [] none none none none) =
      Serialize.ProjectionSite.value site ++ ":" := by
    simp [Serialize.Projection.value, String.intercalate]
  have hser : Serialize.make_input_file input =
      Except.ok (String.intercalate ("\n")
        ((Serialize.input_sections input).map
          (fun s => String.intercalate ("\n") s))) := by
    simp [Serialize.make_input_file, hok]
  refine ⟨hok, ⟨_, hser⟩, hv, ?_⟩
  · have hm : Serialize.ProjectionSite.value site ++ ":" ∈
        input.projections.map Serialize.Projection.value := by
      rw [← hv]
      exact List.mem_map_of_mem _ hmem
    simp only [Serialize.make_projections, List.mem_append]
    tauto

/-- C10 witness: the single empty-channel-projection configuration
validates, serializes, and renders the projection as `Se:`. -/
theorem empty_channel_unenforced_spec_witness :
    W90.validate Examples.empty_channel_ok_input = Except.ok () ∧
    (∃ doc, Serialize.make_input_file Examples.empty_channel_ok_input =
        Except.ok doc) ∧
    Serialize.Projection.value
        (W90.Projection.Site (W90.ProjectionSite.Species ("Se")) []
          none none none none) =
      Serialize.ProjectionSite.value (W90.ProjectionSite.Species ("Se")) ++
        ":" ∧
    (Serialize.ProjectionSite.value (W90.ProjectionSite.Species ("Se")) ++
        ":") ∈
      Serialize.make_projections Examples.empty_channel_ok_input :=
  empty_channel_unenforced_spec Examples.empty_channel_ok_input
    (W90.ProjectionSite.Species ("Se")) (List.mem_cons_self _ _) (by decide)

/-- On every successful run, `w90_input`'s result carries
`write_hr = Some(true)`, the derived spinor flag and the derived cell. -/
theorem QeWorkflow.w90_input_ok_fields (nscf : Pw.Input) (num_wann : Nat)
    (mode : W90.MLWFIterationMode) (dis : W90.Disentanglement)
    (pu : Option W90.LatticeUnits) (projs : List W90.Projection)
    (out : W90.Input)
    (hok : QeWorkflow.w90_input nscf num_wann mode dis pu projs =
      Except.ok out) :
    out.write_hr = some true ∧
    out.spinors = QeWorkflow.derived_spinors nscf ∧
    out.unit_cell_cart = QeWorkflow.derived_cell nscf := by
  unfold QeWorkflow.w90_input at hok
  cases hnb : QeWorkflow.w90_num_bands nscf <;> rw [hnb] at hok
  case error => exact Except.noConfusion hok
  case ok nb =>
    cases hp : QeWorkflow.derived_positions nscf <;> rw [hp] at hok
    case error => exact Except.noConfusion hok
    case ok pos =>
      cases hk : QeWorkflow.w90_kpoints nscf <;> rw [hk] at hok
      case error => exact Except.noConfusion hok
      case ok kp =>
        cases hok
        exact ⟨rfl, rfl, rfl⟩

/-- C4: deriving a band-structure stage from a non-self-consistent
upstream whose symmetry-disable flag is absent or `false` fails with
`NoSym`; with the flag explicitly `true` and a band-path k-point
specification it succeeds, its calculation carrying the upstream
diagonalization threshold and band count unchanged; with a k-point
specification of any other kind it fails with `WrongKPointsBands`. -/
theorem bands_input_spec (nscf : Pw.Input) (bands_kpoints : Pw.KPoints)
    (t : ℚ) (nb : Option Nat) :
    ((nscf.calculation = Pw.Calculation.Nscf t nb none ∨
        nscf.calculation = Pw.Calculation.Nscf t nb (some false)) →
      QeWorkflow.bands_input nscf bands_kpoints =
        Except.error QeWorkflow.Error.NoSym) ∧
    (nscf.calculation = Pw.Calculation.Nscf t nb (some true) →
      ((∃ path, bands_kpoints = Pw.KPoints.CrystalBands path) →
        ∃ out, QeWorkflow.bands_input nscf bands_kpoints = Except.ok out ∧
          out.calculation = Pw.Calculation.Bands t nb (some true)) ∧
      ((∀ path, bands_kpoints ≠ Pw.KPoints.CrystalBands path) →
        QeWorkflow.bands_input nscf bands_kpoints =
          Except.error QeWorkflow.Error.WrongKPointsBands)) := by
  refine ⟨fun h => ?_, fun h => ⟨fun hex => ?_, fun hnp => ?_⟩⟩
  · rcases h with h | h <;> simp [QeWorkflow.bands_input, h]
  · obtain ⟨path, rfl⟩ := hex
    refine ⟨{ nscf with
        calculation := Pw.Calculation.Bands t nb (some true),
        k_points := Pw.KPoints.CrystalBands path }, ?_, rfl⟩
    simp [QeWorkflow.bands_input, h]
  · cases bands_kpoints with
    | CrystalBands path => exact absurd rfl (hnp path)
    | CrystalUniform nk => simp [QeWorkflow.bands_input, h]
    | Other => simp [QeWorkflow.bands_input, h]

/-- C4 witness: the absent-flag upstream fails with `NoSym`; the
`true`-flag upstream with a band path succeeds carrying threshold 1 and
band count 44; the `true`-flag upstream with a non-band-path k-point
specification fails with `WrongKPointsBands`. -/
theorem bands_input_spec_witness :
    QeWorkflow.bands_input Examples.nscf_nosym_none_pw_input
        Examples.band_path_kpoints = Except.error QeWorkflow.Error.NoSym ∧
    (∃ out, QeWorkflow.bands_input Examples.nscf_sym_true_pw_input
          Examples.band_path_kpoints = Except.ok out ∧
        out.calculation = Pw.Calculation.Bands 1 (some 44) (some true)) ∧
    QeWorkflow.bands_input Examples.nscf_sym_true_pw_input
        Pw.KPoints.Other =
      Except.error QeWorkflow.Error.WrongKPointsBands :=
  ⟨(bands_input_spec Examples.nscf_nosym_none_pw_input
      Examples.band_path_kpoints 1 (some 44)).1 (Or.inl rfl),
   ((bands_input_spec Examples.nscf_sym_true_pw_input
      Examples.band_path_kpoints 1 (some 44)).2 rfl).1 ⟨_, rfl⟩,
   ((bands_input_spec Examples.nscf_sym_true_pw_input
      Pw.KPoints.Other 1 (some 44)).2 rfl).2 (fun path h => by cases h)⟩

/-- C5: deriving a non-self-consistent stage from an upstream whose
calculation kind is not self-consistent fails with `WrongCalculation`;
from a self-consistent upstream it succeeds, the result's calculation
kind being non-self-consistent with the given threshold and band count
and symmetry reduction disabled, and its k-point specification the
uniform fractional grid of the supplied shape. -/
theorem nscf_input_spec (scf : Pw.Input) (t : ℚ) (nb : Nat)
    (sm : Pw.Smearing) (sw : ℚ) (nk : Nat × Nat × Nat) :
    (scf.calculation ≠ Pw.Calculation.Scf →
      QeWorkflow.nscf_input scf t nb sm sw nk =
        Except.error QeWorkflow.Error.WrongCalculation) ∧
    (scf.calculation = Pw.Calculation.Scf →
      ∃ out, QeWorkflow.nscf_input scf t nb sm sw nk = Except.ok out ∧
        out.calculation = Pw.Calculation.Nscf t (some nb) (some true) ∧
        out.k_points = Pw.KPoints.CrystalUniform nk) := by
  constructor
  · intro h
    cases hc : scf.calculation with
    | Scf => exact absurd hc h
    | Nscf a b c => simp [QeWorkflow.nscf_input, hc]
    | Bands a b c => simp [QeWorkflow.nscf_input, hc]
  · intro h
    refine ⟨{ scf with
        calculation := Pw.Calculation.Nscf t (some nb) (some true),
        system := { scf.system with
          occupations := Pw.Occupations.Smearing sm sw },
        k_points := Pw.KPoints.CrystalUniform nk }, ?_, rfl, rfl⟩
    simp [QeWorkflow.nscf_input, h]

/-- C5 witness: a non-self-consistent upstream is rejected with
`WrongCalculation`; the self-consistent example succeeds with the Nscf
payload (threshold 1, 44 bands, symmetry disabled) and the 8×8×8 grid. -/
theorem nscf_input_spec_witness :
    QeWorkflow.nscf_input Examples.nscf_sym_true_pw_input 1 44
        Pw.Smearing.Gaussian 1 (8, 8, 8) =
      Except.error QeWorkflow.Error.WrongCalculation ∧
    (∃ out, QeWorkflow.nscf_input Examples.scf_pw_input 1 44
          Pw.Smearing.Gaussian 1 (8, 8, 8) = Except.ok out ∧
        out.calculation = Pw.Calculation.Nscf 1 (some 44) (some true) ∧
        out.k_points = Pw.KPoints.CrystalUniform (8, 8, 8)) :=
  ⟨(nscf_input_spec Examples.nscf_sym_true_pw_input 1 44
      Pw.Smearing.Gaussian 1 (8, 8, 8)).1 (fun h => by cases h),
   (nscf_input_spec Examples.scf_pw_input 1 44
      Pw.Smearing.Gaussian 1 (8, 8, 8)).2 rfl⟩

/-- C6: in every successful Wannierization derivation from an upstream
whose cell is in lattice-parameter-relative units with lattice parameter
`alat`, the derived cell is tagged Bohr and every one of its nine
components is the upstream component multiplied by `alat`; an upstream
cell already in Bohr or angstrom units passes through with components
unchanged and the corresponding tag. -/
theorem w90_input_cell_spec (nscf : Pw.Input) (num_wann : Nat)
    (mode : W90.MLWFIterationMode) (dis : W90.Disentanglement)
    (pu : Option W90.LatticeUnits) (projs : List W90.Projection)
    (cell : Pw.Cell) (out : W90.Input)
    (hcell : nscf.system.ibrav = Pw.Ibrav.Free cell)
    (hok : QeWorkflow.w90_input nscf num_wann mode dis pu projs =
      Except.ok out) :
    (cell.units = Pw.LatticeUnits.Alat →
      out.unit_cell_cart.units = W90.LatticeUnits.Bohr ∧
      out.unit_cell_cart.cell =
        ((nscf.system.alat * cell.cell.1.1,
          nscf.system.alat * cell.cell.1.2.1,
          nscf.system.alat * cell.cell.1.2.2),
         (nscf.system.alat * cell.cell.2.1.1,
          nscf.system.alat * cell.cell.2.1.2.1,
          nscf.system.alat * cell.cell.2.1.2.2),
         (nscf.system.alat * cell.cell.2.2.1,
          nscf.system.alat * cell.cell.2.2.2.1,
          nscf.system.alat * cell.cell.2.2.2.2))) ∧
    (cell.units = Pw.LatticeUnits.Bohr →
      out.unit_cell_cart =
        { units := W90.LatticeUnits.Bohr, cell := cell.cell }) ∧
    (cell.units = Pw.LatticeUnits.Angstrom →
      out.unit_cell_cart =
        { units := W90.LatticeUnits.Angstrom, cell := cell.cell }) := by
  obtain ⟨-, -, hc⟩ :=
    QeWorkflow.w90_input_ok_fields nscf num_wann mode dis pu projs out hok
  rw [hc]
  refine ⟨fun hu => ?_, fun hu => ?_, fun hu => ?_⟩ <;>
    simp [QeWorkflow.derived_cell, hcell, hu, QeWorkflow.scale_cell]

/-- C6 witness: the example derivation from the `Alat` cell with
`alat = 2` succeeds and its cell is the componentwise scaling, tagged
Bohr. -/
theorem w90_input_cell_spec_witness :
    Examples.nscf_sym_true_pw_input.system.ibrav =
      Pw.Ibrav.Free Examples.alat_pw_cell ∧
    QeWorkflow.w90_input Examples.nscf_sym_true_pw_input 22
        W90.MLWFIterationMode.ProjectionOnly
        Examples.example_disentanglement none [] =
      Except.ok Examples.w90_out_input ∧
    Examples.alat_pw_cell.units = Pw.LatticeUnits.Alat ∧
    (Examples.w90_out_input.unit_cell_cart.units = W90.LatticeUnits.Bohr ∧
      Examples.w90_out_input.unit_cell_cart.cell =
        ((Examples.nscf_sym_true_pw_input.system.alat *
            Examples.alat_pw_cell.cell.1.1,
          Examples.nscf_sym_true_pw_input.system.alat *
            Examples.alat_pw_cell.cell.1.2.1,
          Examples.nscf_sym_true_pw_input.system.alat *
            Examples.alat_pw_cell.cell.1.2.2),
         (Examples.nscf_sym_true_pw_input.system.alat *
            Examples.alat_pw_cell.cell.2.1.1,
          Examples.nscf_sym_true_pw_input.system.alat *
            Examples.alat_pw_cell.cell.2.1.2.1,
          Examples.nscf_sym_true_pw_input.system.alat *
            Examples.alat_pw_cell.cell.2.1.2.2),
         (Examples.nscf_sym_true_pw_input.system.alat *
            Examples.alat_pw_cell.cell.2.2.1,
          Examples.nscf_sym_true_pw_input.system.alat *
            Examples.alat_pw_cell.cell.2.2.2.1,
          Examples.nscf_sym_true_pw_input.system.alat *
            Examples.alat_pw_cell.cell.2.2.2.2))) :=
  ⟨rfl, rfl, rfl,
   (w90_input_cell_spec Examples.nscf_sym_true_pw_input 22
      W90.MLWFIterationMode.ProjectionOnly Examples.example_disentanglement
      none [] Examples.alat_pw_cell Examples.w90_out_input rfl rfl).1 rfl⟩

/-- C7: in every successful Wannierization derivation, the spinor flag
is `true` exactly when the upstream spin type is non-collinear (so
`false` for unpolarized, collinear-polarized or absent spin type), and
the result's real-space-Hamiltonian flag is always `Some(true)`. -/
theorem w90_input_spinors_write_hr_spec (nscf : Pw.Input) (num_wann : Nat)
    (mode : W90.MLWFIterationMode) (dis : W90.Disentanglement)
    (pu : Option W90.LatticeUnits) (projs : List W90.Projection)
    (out : W90.Input)
    (hok : QeWorkflow.w90_input nscf num_wann mode dis pu projs =
      Except.ok out) :
    (out.spinors = true ↔
      nscf.system.spin_type = some Pw.SpinType.Noncollinear) ∧
    out.write_hr = some true := by
  obtain ⟨hw, hs, -⟩ :=
    QeWorkflow.w90_input_ok_fields nscf num_wann mode dis pu projs out hok
  refine ⟨?_, hw⟩
  rw [hs]
  cases hst : nscf.system.spin_type with
  | none => simp [QeWorkflow.derived_spinors, hst]
  | some st => cases st <;> simp [QeWorkflow.derived_spinors, hst]

/-- C7 witness: the example derivation (non-collinear upstream) carries
a `true` spinor flag and `write_hr = Some(true)`. -/
theorem w90_input_spinors_write_hr_spec_witness :
    QeWorkflow.w90_input Examples.nscf_sym_true_pw_input 22
        W90.MLWFIterationMode.ProjectionOnly
        Examples.example_disentanglement none [] =
      Except.ok Examples.w90_out_input ∧
    ((Examples.w90_out_input.spinors = true ↔
        Examples.nscf_sym_true_pw_input.system.spin_type =
          some Pw.SpinType.Noncollinear) ∧
      Examples.w90_out_input.write_hr = some true) :=
  ⟨rfl,
   w90_input_spinors_write_hr_spec Examples.nscf_sym_true_pw_input 22
     W90.MLWFIterationMode.ProjectionOnly Examples.example_disentanglement
     none [] Examples.w90_out_input rfl⟩

/-- C8: in every successful stage derivation, every modelled upstream
field other than the replaced ones is unchanged — for the
self-consistent → non-self-consistent derivation everything except the
calculation kind, the occupations policy and the k-point specification
(so the Bravais lattice, lattice parameter, spin type and atomic
positions), and for the non-self-consistent → band-structure derivation
everything except the calculation kind and the k-point specification
(so the whole system record and the atomic positions). -/
theorem stage_derivation_preserves_fields (scf nscf : Pw.Input) (t : ℚ)
    (nb : Nat) (sm : Pw.Smearing) (sw : ℚ) (nk : Nat × Nat × Nat)
    (bk : Pw.KPoints) :
    (∀ out, QeWorkflow.nscf_input scf t nb sm sw nk = Except.ok out →
      out.system.ibrav = scf.system.ibrav ∧
      out.system.alat = scf.system.alat ∧
      out.system.spin_type = scf.system.spin_type ∧
      out.atomic_positions = scf.atomic_positions) ∧
    (∀ out, QeWorkflow.bands_input nscf bk = Except.ok out →
      out.system = nscf.system ∧
      out.atomic_positions = nscf.atomic_positions) := by
  constructor
  · intro out hout
    unfold QeWorkflow.nscf_input at hout
    cases hc : scf.calculation <;> rw [hc] at hout
    case Scf =>
      cases hout
      exact ⟨rfl, rfl, rfl, rfl⟩
    case Nscf a b c => exact Except.noConfusion hout
    case Bands a b c => exact Except.noConfusion hout
  · intro out hout
    unfold QeWorkflow.bands_input at hout
    cases hc : nscf.calculation <;> rw [hc] at hout
    case Scf => exact Except.noConfusion hout
    case Bands a b c => exact Except.noConfusion hout
    case Nscf a b c =>
      cases c with
      | none => exact Except.noConfusion hout
      | some ns =>
        cases ns with
        | false => exact Except.noConfusion hout
        | true =>
          cases bk with
          | CrystalUniform nk2 => exact Except.noConfusion hout
          | Other => exact Except.noConfusion hout
          | CrystalBands path =>
            cases hout
            exact ⟨rfl, rfl⟩

/-- C8 witness: the two example derivations succeed and preserve the
non-replaced fields. -/
theorem stage_derivation_preserves_fields_witness :
    (QeWorkflow.nscf_input Examples.scf_pw_input 1 44
        Pw.Smearing.Gaussian 1 (8, 8, 8) =
      Except.ok Examples.nscf_out_pw_input) ∧
    (Examples.nscf_out_pw_input.system.ibrav =
        Examples.scf_pw_input.system.ibrav ∧
      Examples.nscf_out_pw_input.system.alat =
        Examples.scf_pw_input.system.alat ∧
      Examples.nscf_out_pw_input.system.spin_type =
        Examples.scf_pw_input.system.spin_type ∧
      Examples.nscf_out_pw_input.atomic_positions =
        Examples.scf_pw_input.atomic_positions) ∧
    (QeWorkflow.bands_input Examples.nscf_sym_true_pw_input
        Examples.band_path_kpoints = Except.ok Examples.bands_out_pw_input) ∧
    (Examples.bands_out_pw_input.system =
        Examples.nscf_sym_true_pw_input.system ∧
      Examples.bands_out_pw_input.atomic_positions =
        Examples.nscf_sym_true_pw_input.atomic_positions) :=
  ⟨rfl,
   (stage_derivation_preserves_fields Examples.scf_pw_input
      Examples.nscf_sym_true_pw_input 1 44 Pw.Smearing.Gaussian 1
      (8, 8, 8) Examples.band_path_kpoints).1
     Examples.nscf_out_pw_input rfl,
   rfl,
   (stage_derivation_preserves_fields Examples.scf_pw_input
      Examples.nscf_sym_true_pw_input 1 44 Pw.Smearing.Gaussian 1
      (8, 8, 8) Examples.band_path_kpoints).2
     Examples.bands_out_pw_input rfl⟩
